import Mathlib

/-!
Shallow embedding of the launch orchestration scripts
`src/generic/launch.py` and `src/vulkan/launch.py` of the
majsoulrpaview repository.

Pure data (option records, command token lists, derived geometry) is
translated directly from the Python source.  The effectful parts
(`subprocess.run` with `check=True`, `subprocess.Popen`, the
`DockerContainer` context manager, `input()`) are modelled as explicit
trace-producing functions over a `World` record that injects the
outcome of every external interaction (exit codes, captured stdout and
stderr, interrupts), so that every execution path of `_main` is a value
of the embedding.
-/

namespace Majsoulrpaview

/-- Exceptions that the Python scripts can raise: `RuntimeError` with a
message (tagged here by the raise site), `subprocess.CalledProcessError`
(a checked command exited non-zero), `KeyboardInterrupt`, and the
`IndexError` from `result.stdout.splitlines()[0]`. -/
inductive Exc where
  | runtimeError (msg : String)
  | calledProcessError
  | keyboardInterrupt
  | indexError
deriving DecidableEq, Repr

/-- Command-line options of `src/generic/launch.py` after `argparse`
conversion.  `--vnc-password-file` is a filesystem path; the two facts
about it that `_parse_arguments` queries (`exists()`, `is_file()`) are
carried as booleans. -/
structure GenericOptions where
  viewport_height : Int
  depth : Int
  remote_host : String
  remote_port : Int
  message_queue_port : Int
  novnc_port : Int
  pwfileExists : Bool
  pwfileIsFile : Bool
deriving DecidableEq, Repr

/-- Command-line options of `src/vulkan/launch.py`. -/
structure VulkanOptions where
  driver : String
  viewport_height : Int
  depth : Int
  device : Int
  remote_host : String
  remote_port : Int
  message_queue_port : Int
  novnc_port : Int
  pwfileExists : Bool
  pwfileIsFile : Bool
deriving DecidableEq, Repr

/-- Validation part of `_parse_arguments` in `src/generic/launch.py`
(lines 79-108): the chain of range checks and file checks, each raising
`RuntimeError` on failure.  Note the `novnc_port` check uses
`< 1024 or 49151 <` while the other port checks use
`<= 1024 or 49152 <=`. -/
def genericValidate (o : GenericOptions) : Except Exc Unit :=
  if o.viewport_height < 720 ∨ 2160 < o.viewport_height then
    .error (.runtimeError "viewport-height")
  else if o.remote_port ≤ 1024 ∨ 49152 ≤ o.remote_port then
    .error (.runtimeError "remote-port")
  else if o.message_queue_port ≤ 1024 ∨ 49152 ≤ o.message_queue_port then
    .error (.runtimeError "message-queue-port")
  else if o.novnc_port < 1024 ∨ 49151 < o.novnc_port then
    .error (.runtimeError "novnc-port")
  else if o.pwfileExists = false then
    .error (.runtimeError "password-file-does-not-exist")
  else if o.pwfileIsFile = false then
    .error (.runtimeError "password-file-not-a-file")
  else
    .ok ()

/-- Validation part of `_parse_arguments` in `src/vulkan/launch.py`
(lines 95-128).  Here the `novnc_port` check is
`<= 1024 or 49152 <=` like all the others. -/
def vulkanValidate (o : VulkanOptions) : Except Exc Unit :=
  if o.viewport_height < 720 ∨ 2160 < o.viewport_height then
    .error (.runtimeError "viewport-height")
  else if o.device < 0 then
    .error (.runtimeError "device")
  else if o.remote_port ≤ 1024 ∨ 49152 ≤ o.remote_port then
    .error (.runtimeError "remote-port")
  else if o.message_queue_port ≤ 1024 ∨ 49152 ≤ o.message_queue_port then
    .error (.runtimeError "message-queue-port")
  else if o.novnc_port ≤ 1024 ∨ 49152 ≤ o.novnc_port then
    .error (.runtimeError "novnc-port")
  else if o.pwfileExists = false then
    .error (.runtimeError "password-file-does-not-exist")
  else if o.pwfileIsFile = false then
    .error (.runtimeError "password-file-not-a-file")
  else
    .ok ()

/-- `width = (options.viewport_height // 9) * 16` — Python floor
division `//` is `Int.fdiv`. -/
def derivedWidth (h : Int) : Int := h.fdiv 9 * 16

/-- `height = (width * 3) // 4`. -/
def derivedHeight (h : Int) : Int := (derivedWidth h * 3).fdiv 4

/-- The single-quote character `'` that `_main` rejects in the
credential (`vnc_password.find("'") != -1`). -/
def singleQuote : Char := Char.ofNat 39

/-- The newline character. -/
def nlChar : Char := Char.ofNat 10

/-- Split a character list on newline characters (the list of
separated segments, like Python `str.split("\n")`). -/
def splitOnNl : List Char → List (List Char)
  | [] => [[]]
  | x :: xs =>
    match splitOnNl xs with
    | [] => [[]]
    | y :: ys =>
      if x = nlChar then [] :: y :: ys else (x :: y) :: ys

/-- Python `str.splitlines()` restricted to `\n` separators: an empty
string yields `[]`, a trailing newline adds no empty final element. -/
def splitlines (s : String) : List String :=
  if s.data = [] then []
  else
    let parts := splitOnNl s.data
    if parts.getLast? = some [] then (parts.dropLast).map String.mk
    else parts.map String.mk

/-- Characters of the first line: everything before the first
newline. -/
def firstLineChars : List Char → List Char
  | [] => []
  | x :: xs => if x = nlChar then [] else x :: firstLineChars xs

/-- `f.readline().rstrip("\n")` on a file whose whole content is `s`:
the first line without its newline (empty if the file is empty). -/
def readlineRstrip (s : String) : String :=
  String.mk (firstLineChars s.data)

/-- Python `s.find(c) != -1` for a single character: membership of the
character in the string. -/
def containsChar (s : String) (c : Char) : Bool := s.data.contains c

/-- Observable actions of one run of `_main`: an external command
issued through `subprocess` (its token list), running the credential
file, echoing its stderr to stdout and to stderr, and the `input()`
prompt. -/
inductive Event where
  | cmd (args : List String)
  | credentialRun
  | echoOut (s : String)
  | echoErr (s : String)
  | prompt (s : String)
deriving DecidableEq, Repr

/-- Injected outcome of one checked external interaction: the command
exits zero, exits non-zero (so `check=True` raises
`CalledProcessError`), or a `KeyboardInterrupt` is delivered during the
call. -/
inductive Outcome where
  | success
  | failure
  | interrupt
deriving DecidableEq, Repr

/-- `subprocess.run(args, check=True)`: the command is issued; a
non-zero exit raises `CalledProcessError`, an interrupt raises
`KeyboardInterrupt`. -/
def runChecked (args : List String) (out : Outcome) :
    List Event × Option Exc :=
  match out with
  | .success => ([Event.cmd args], none)
  | .failure => ([Event.cmd args], some .calledProcessError)
  | .interrupt => ([Event.cmd args], some .keyboardInterrupt)

/-- A sequence of checked commands run in order; the first raising
command aborts the rest. -/
def runSteps : List (List String × Outcome) → List Event × Option Exc
  | [] => ([], none)
  | (args, out) :: rest =>
    match out with
    | .success =>
      let r := runSteps rest
      (Event.cmd args :: r.1, r.2)
    | .failure => ([Event.cmd args], some .calledProcessError)
    | .interrupt => ([Event.cmd args], some .keyboardInterrupt)

/-- Sequencing of two trace-producing computations: the second runs
only if the first did not raise. -/
def seqPE (a b : List Event × Option Exc) : List Event × Option Exc :=
  match a.2 with
  | some e => (a.1, some e)
  | none => (a.1 ++ b.1, b.2)

/-- The `docker build` command of `_run_container` in
`src/generic/launch.py` (lines 112-125). -/
def genericBuildCmd : List String :=
  ["docker", "build", "--pull", "--progress=plain", "-t",
   "cryolite/majsoulrpaview:generic", "."]

/-- The `docker run` command of `_run_container` in
`src/generic/launch.py` (lines 128-145). -/
def genericRunCmd (o : GenericOptions) : List String :=
  let np := o.novnc_port
  ["docker", "run", "--cap-add", "SYS_ADMIN", "-p", s!"{np}:6080",
   "-d", "--rm", "cryolite/majsoulrpaview:generic", "sleep", "INFINITY"]

/-- The `docker container stop` command of `DockerContainer.__exit__`. -/
def stopCmd (cid : String) : List String :=
  ["docker", "container", "stop", cid]

/-- The `Xvfb` exec step (`src/generic/launch.py` lines 175-192). -/
def xvfbCmd (cid : String) (width height depth : Int) : List String :=
  ["docker", "exec", "-d", cid, "Xvfb", ":0", "-screen", "0",
   s!"{width}x{height}x{depth}", "+extension", "GLX"]

/-- The `x11vnc -storepasswd` exec step (lines 194-207) — the one
command that carries the credential. -/
def storePasswdCmd (cid pw : String) : List String :=
  ["docker", "exec", cid, "x11vnc", "-storepasswd", pw, ".vnc/passwd"]

/-- The `x11vnc` server exec step (lines 209-235). -/
def x11vncCmd (cid : String) (width height : Int) : List String :=
  ["docker", "exec", "-d", cid, "x11vnc", "-display", ":0", "-rfbport",
   "5900", "-geometry", s!"{width}x{height}", "-shared", "-forever",
   "-loop", "-localhost", "-o", "x11vnc.log", "-repeat", "-rfbauth",
   ".vnc/passwd"]

/-- The noVNC web-relay exec step (lines 237-248). -/
def novncCmd (cid : String) : List String :=
  ["docker", "exec", "-d", cid, "/usr/share/novnc/utils/launch.sh"]

/-- The detached remote-browser exec step (lines 250-272): a `bash -c`
command that activates the local automation environment and starts
`majsoulrpa_remote_browser` with the remote host/port, message-queue
port and viewport height. -/
def remoteBrowserCmd (o : GenericOptions) (cid : String) : List String :=
  let rh := o.remote_host
  let rp := o.remote_port
  let mq := o.message_queue_port
  let vh := o.viewport_height
  ["docker", "exec", "-e", "DISPLAY=:0", "-d", cid, "bash", "-c",
   ". majsoulrpa/.venv/bin/activate; majsoulrpa_remote_browser" ++
   s!" --remote_host {rh} --remote_port {rp}" ++
   s!" --message_queue_port {mq} --viewport_height {vh}"]

/-- The `input()` prompt text at the end of `_main`. -/
def promptMsg : String := "Press any key to kill the remote browser..."

/-- Environment of one run of the generic script: outcome of the
`docker build`, content of the temporary file that captured the
`docker run` stdout, outcome / stdout / stderr of running the
credential file, outcomes of the five `docker exec` steps, whether the
final `input()` was interrupted, and the exit code of the
`docker container stop` issued by `DockerContainer.__exit__`. -/
structure GenWorld where
  buildOutcome : Outcome
  runStdout : String
  credOutcome : Outcome
  credStdout : String
  credStderr : String
  xvfbOutcome : Outcome
  storeOutcome : Outcome
  vncOutcome : Outcome
  novncOutcome : Outcome
  browserOutcome : Outcome
  inputInterrupted : Bool
  stopExit : Int
deriving DecidableEq, Repr

/-- The five `docker exec` steps of the generic `_main` body, in
source order, paired with their injected outcomes. -/
def genericSteps (o : GenericOptions) (w : GenWorld) (cid pw : String) :
    List (List String × Outcome) :=
  let width := derivedWidth o.viewport_height
  let height := derivedHeight o.viewport_height
  [(xvfbCmd cid width height o.depth, w.xvfbOutcome),
   (storePasswdCmd cid pw, w.storeOutcome),
   (x11vncCmd cid width height, w.vncOutcome),
   (novncCmd cid, w.novncOutcome),
   (remoteBrowserCmd o cid, w.browserOutcome)]

/-- Body of the `with DockerContainer(container_id):` block in the
generic `_main` (lines 161-274): run the credential file
(`check=True`, `capture_output=True`), echo its stderr to stdout and
stderr, take the first line of its stdout (`splitlines()[0]`, an
`IndexError` if there is none), reject a credential containing a single
quote, then run the five exec steps, then block on `input()`. -/
def genericBody (o : GenericOptions) (w : GenWorld) (cid : String) :
    List Event × Option Exc :=
  match w.credOutcome with
  | .failure => ([Event.credentialRun], some .calledProcessError)
  | .interrupt => ([Event.credentialRun], some .keyboardInterrupt)
  | .success =>
    let pre : List Event :=
      [Event.credentialRun, Event.echoOut w.credStderr,
       Event.echoErr w.credStderr]
    match (splitlines w.credStdout).get? 0 with
    | none => (pre, some .indexError)
    | some pw =>
      if containsChar pw singleQuote then
        (pre, some (.runtimeError "vnc-password-single-quote"))
      else
        let rest := seqPE (runSteps (genericSteps o w cid pw))
          (if w.inputInterrupted then
            ([Event.prompt promptMsg], some .keyboardInterrupt)
          else
            ([Event.prompt promptMsg], none))
        (pre ++ rest.1, rest.2)

/-- `DockerContainer.__exit__`: issue `docker container stop` with
`check=True`, so a non-zero exit raises `CalledProcessError`. -/
def dockerContainerStop (cid : String) (stopExit : Int) :
    List Event × Option Exc :=
  if stopExit = 0 then ([Event.cmd (stopCmd cid)], none)
  else ([Event.cmd (stopCmd cid)], some .calledProcessError)

/-- Python `with` semantics over `DockerContainer`: the body runs, then
`__exit__` runs unconditionally; an exception raised by `__exit__`
supersedes the body's exception, otherwise the body's exception (if
any) propagates. -/
def withDockerContainer (cid : String) (stopExit : Int)
    (body : List Event × Option Exc) : List Event × Option Exc :=
  let ex := dockerContainerStop cid stopExit
  (body.1 ++ ex.1,
   match ex.2 with
   | some e => some e
   | none => body.2)

/-- The whole generic `_main` (lines 152-274) over a `World`:
validation, geometry, `_run_container` (build checked, run issued
fire-and-forget, settle delay, identifier read as the first line of the
captured stdout), then the guarded scope. -/
def genericMain (o : GenericOptions) (w : GenWorld) :
    List Event × Option Exc :=
  match genericValidate o with
  | .error e => ([], some e)
  | .ok _ =>
    match runChecked genericBuildCmd w.buildOutcome with
    | (t, some e) => (t, some e)
    | (t, none) =>
      let cid := readlineRstrip w.runStdout
      let res := withDockerContainer cid w.stopExit (genericBody o w cid)
      (t ++ [Event.cmd (genericRunCmd o)] ++ res.1, res.2)

/-- An event is the stop-by-identifier command. -/
def isStop (e : Event) : Bool :=
  match e with
  | .cmd args => List.take 3 args == ["docker", "container", "stop"]
  | _ => false

/-- An event is an exec-into-container command. -/
def isExec (e : Event) : Bool :=
  match e with
  | .cmd args => List.take 2 args == ["docker", "exec"]
  | _ => false

/-- An event is an echo of the credential program's stderr. -/
def isEcho (e : Event) : Bool :=
  match e with
  | .echoOut _ => true
  | .echoErr _ => true
  | _ => false

/-- Number of stop commands in a trace. -/
def stopCount (t : List Event) : Nat := (t.filter isStop).length

/-- Every event emitted by a step sequence is one of its commands. -/
lemma runSteps_events (l : List (List String × Outcome)) :
    ∀ e ∈ (runSteps l).1, ∃ p ∈ l, e = Event.cmd p.1 := by
  induction l with
  | nil => intro e he; simp [runSteps] at he
  | cons hd tl ih =>
    intro e he
    obtain ⟨args, out⟩ := hd
    cases out with
    | success =>
      simp only [runSteps, List.mem_cons] at he
      rcases he with rfl | he
      · exact ⟨(args, .success), by simp, rfl⟩
      · obtain ⟨p, hp, rfl⟩ := ih e he
        exact ⟨p, by simp [hp], rfl⟩
    | failure =>
      simp only [runSteps, List.mem_singleton] at he
      subst he
      exact ⟨(args, .failure), by simp, rfl⟩
    | interrupt =>
      simp only [runSteps, List.mem_singleton] at he
      subst he
      exact ⟨(args, .interrupt), by simp, rfl⟩

/-- Every event emitted by a sequencing comes from one of its parts. -/
lemma seqPE_events (a b : List Event × Option Exc) :
    ∀ e ∈ (seqPE a b).1, e ∈ a.1 ∨ e ∈ b.1 := by
  obtain ⟨ta, ea⟩ := a
  obtain ⟨tb, eb⟩ := b
  intro e he
  cases ea with
  | some ex =>
    simp only [seqPE] at he
    exact Or.inl he
  | none =>
    simp only [seqPE] at he
    exact List.mem_append.1 he

/-- No event of the guarded-scope body is a stop command: the stop
command is issued only by `DockerContainer.__exit__`. -/
lemma genericBody_not_stop (o : GenericOptions) (w : GenWorld)
    (cid : String) : ∀ e ∈ (genericBody o w cid).1, isStop e = false := by
  intro e he
  unfold genericBody at he
  split at he
  · simp only [List.mem_singleton] at he
    subst he; rfl
  · simp only [List.mem_singleton] at he
    subst he; rfl
  · split at he
    · simp only [List.mem_cons, List.not_mem_nil, or_false] at he
      rcases he with rfl | rfl | rfl <;> rfl
    · split at he
      · simp only [List.mem_cons, List.not_mem_nil, or_false] at he
        rcases he with rfl | rfl | rfl <;> rfl
      · simp only [List.mem_append, List.mem_cons, List.not_mem_nil,
          or_false] at he
        rcases he with (rfl | rfl | rfl) | he
        · rfl
        · rfl
        · rfl
        · rcases seqPE_events _ _ e he with h | h
          · obtain ⟨p, hp, rfl⟩ := runSteps_events _ e h
            simp only [genericSteps, List.mem_cons, List.not_mem_nil,
              or_false] at hp
            rcases hp with rfl | rfl | rfl | rfl | rfl <;> rfl
          · split at h <;> simp only [List.mem_singleton] at h <;>
              subst h <;> rfl

/-- Under successful validation and build, `genericMain` is the build
and run commands, then the body, then the stop command, with the stop
failure superseding the body's exception. -/
lemma genericMain_eq (o : GenericOptions) (w : GenWorld)
    (hv : genericValidate o = .ok ()) (hb : w.buildOutcome = .success) :
    genericMain o w =
      (Event.cmd genericBuildCmd :: Event.cmd (genericRunCmd o) ::
        ((genericBody o w (readlineRstrip w.runStdout)).1 ++
          [Event.cmd (stopCmd (readlineRstrip w.runStdout))]),
       if w.stopExit = 0 then
         (genericBody o w (readlineRstrip w.runStdout)).2
       else some Exc.calledProcessError) := by
  unfold genericMain runChecked withDockerContainer dockerContainerStop
  rw [hv, hb]
  by_cases hs : w.stopExit = 0 <;> simp [hs]

/-- The stop commands of a full run under successful validation and
build: exactly one, targeting the identifier read from the launcher
stdout. -/
lemma genericMain_stopFilter (o : GenericOptions) (w : GenWorld)
    (hv : genericValidate o = .ok ()) (hb : w.buildOutcome = .success) :
    (genericMain o w).1.filter isStop =
      [Event.cmd (stopCmd (readlineRstrip w.runStdout))] := by
  rw [genericMain_eq o w hv hb]
  have h1 : isStop (Event.cmd genericBuildCmd) = false := rfl
  have h2 : isStop (Event.cmd (genericRunCmd o)) = false := rfl
  have h3 : isStop (Event.cmd (stopCmd (readlineRstrip w.runStdout))) =
      true := rfl
  have h4 : (genericBody o w (readlineRstrip w.runStdout)).1.filter
      isStop = [] :=
    List.filter_eq_nil_iff.2 (by
      intro e he
      rw [genericBody_not_stop o w _ e he]
      simp)
  simp [List.filter_append, h1, h2, h3, h4]

/-- Result of the guarded-scope body when the credential program exits
non-zero: `check=True` raises before any echo or exec step. -/
lemma genericBody_credFail (o : GenericOptions) (w : GenWorld)
    (cid : String) (hc : w.credOutcome = .failure) :
    genericBody o w cid =
      ([Event.credentialRun], some Exc.calledProcessError) := by
  unfold genericBody
  rw [hc]

/-- Result of the guarded-scope body when the credential program
succeeds but prints nothing: the `splitlines()[0]` access is out of
bounds. -/
lemma genericBody_noLine (o : GenericOptions) (w : GenWorld)
    (cid : String) (hc : w.credOutcome = .success)
    (hg : (splitlines w.credStdout).get? 0 = none) :
    genericBody o w cid =
      ([Event.credentialRun, Event.echoOut w.credStderr,
        Event.echoErr w.credStderr], some Exc.indexError) := by
  unfold genericBody
  rw [hc, hg]

/-- Result of the guarded-scope body when the credential contains a
single quote: the session is rejected before any exec step. -/
lemma genericBody_quote (o : GenericOptions) (w : GenWorld)
    (cid pw : String) (hc : w.credOutcome = .success)
    (hg : (splitlines w.credStdout).get? 0 = some pw)
    (hq : containsChar pw singleQuote = true) :
    genericBody o w cid =
      ([Event.credentialRun, Event.echoOut w.credStderr,
        Event.echoErr w.credStderr],
       some (Exc.runtimeError "vnc-password-single-quote")) := by
  unfold genericBody
  rw [hc, hg]
  simp [hq]

/-- Result of the guarded-scope body on the happy path: the five exec
steps in source order, then the blocking prompt. -/
lemma genericBody_happy (o : GenericOptions) (w : GenWorld)
    (cid pw : String) (hc : w.credOutcome = .success)
    (hg : (splitlines w.credStdout).get? 0 = some pw)
    (hq : containsChar pw singleQuote = false)
    (h1 : w.xvfbOutcome = .success) (h2 : w.storeOutcome = .success)
    (h3 : w.vncOutcome = .success) (h4 : w.novncOutcome = .success)
    (h5 : w.browserOutcome = .success)
    (hi : w.inputInterrupted = false) :
    genericBody o w cid =
      ([Event.credentialRun, Event.echoOut w.credStderr,
        Event.echoErr w.credStderr,
        Event.cmd (xvfbCmd cid (derivedWidth o.viewport_height)
          (derivedHeight o.viewport_height) o.depth),
        Event.cmd (storePasswdCmd cid pw),
        Event.cmd (x11vncCmd cid (derivedWidth o.viewport_height)
          (derivedHeight o.viewport_height)),
        Event.cmd (novncCmd cid),
        Event.cmd (remoteBrowserCmd o cid),
        Event.prompt promptMsg], none) := by
  unfold genericBody
  rw [hc, hg]
  simp [hq, genericSteps, runSteps, seqPE, h1, h2, h3, h4, h5, hi]

/-- A valid option record: the script defaults with viewport height
900 and an existing, regular credential file. -/
def oValid : GenericOptions :=
  { viewport_height := 900, depth := 24, remote_host := "127.0.0.1",
    remote_port := 19222, message_queue_port := 37247,
    novnc_port := 6080, pwfileExists := true, pwfileIsFile := true }

/-- An environment in which every external interaction succeeds. -/
def wHappy : GenWorld :=
  { buildOutcome := .success, runStdout := "cid123\n",
    credOutcome := .success, credStdout := "secret1\n",
    credStderr := "diag\n", xvfbOutcome := .success,
    storeOutcome := .success, vncOutcome := .success,
    novncOutcome := .success, browserOutcome := .success,
    inputInterrupted := false, stopExit := 0 }

/-- Claim C1: for every session in which the container reached the
`Running` state (validation succeeded, the build step succeeded, and
the guarded scope was entered with the obtained identifier), the
stop-by-identifier command is executed exactly once — whatever the
outcomes of the credential step, the five bootstrap steps and the
final blocking prompt, including a non-zero exit or an interrupt at
any of them. -/
theorem C1_release_exactly_once (o : GenericOptions) (w : GenWorld)
    (hv : genericValidate o = .ok ()) (hb : w.buildOutcome = .success) :
    stopCount (genericMain o w).1 = 1 := by
  unfold stopCount
  rw [genericMain_stopFilter o w hv hb]
  rfl

/-- Witness for C1 at a concrete input with a failure injected at the
remote-desktop-server bootstrap step. -/
theorem C1_release_exactly_once_witness :
    genericValidate oValid = .ok () ∧
    GenWorld.buildOutcome { wHappy with vncOutcome := .failure } =
      .success ∧
    stopCount
      (genericMain oValid { wHappy with vncOutcome := .failure }).1 =
      1 :=
  ⟨rfl, rfl, C1_release_exactly_once _ _ rfl rfl⟩

/-- Claim C2 counterexample: with every bootstrap step succeeding but
the stop command exiting non-zero, the release failure is the final
fatal error of the session (`CalledProcessError` propagates out of
`DockerContainer.__exit__`); it is not swallowed-and-reported. -/
theorem C2_release_failure_counterexample :
    (genericMain oValid { wHappy with stopExit := 1 }).2 =
      some Exc.calledProcessError ∧
    (dockerContainerStop "cid123" 1).2 = some Exc.calledProcessError :=
  ⟨rfl, rfl⟩

/-- Claim C2 amended: if the stop command issued during release exits
non-zero, `DockerContainer.__exit__` raises `CalledProcessError`
(`subprocess.run` is called with `check=True`), and that exception
propagates as the session's fatal error, superseding any body
exception; release failure is propagated, not swallowed. -/
theorem C2_release_failure_propagates (cid : String) (se : Int)
    (body : List Event × Option Exc) (hs : se ≠ 0) :
    (withDockerContainer cid se body).2 = some Exc.calledProcessError := by
  unfold withDockerContainer dockerContainerStop
  rw [if_neg hs]

/-- Witness for the amended C2. -/
theorem C2_release_failure_propagates_witness :
    (1 : Int) ≠ 0 ∧
    (withDockerContainer "cid123" 1 ([], none)).2 =
      some Exc.calledProcessError :=
  ⟨by decide, C2_release_failure_propagates "cid123" 1 ([], none)
    (by decide)⟩

/-- An environment identical to `wHappy` except that the `docker run`
stdout is empty after the settle delay. -/
def wEmptyRun : GenWorld := { wHappy with runStdout := "" }

/-- Claim C3 counterexample: when the launcher's stdout is empty, the
session does not fail at all — it completes with no exception, all
five exec steps are attempted, and a stop command is issued — because
no check of the identifier exists in `_run_container`. -/
theorem C3_empty_identifier_counterexample :
    (genericMain oValid wEmptyRun).2 = none ∧
    (genericMain oValid wEmptyRun).1.countP isExec = 5 ∧
    stopCount (genericMain oValid wEmptyRun).1 = 1 :=
  ⟨rfl, rfl, rfl⟩

/-- Claim C3 amended: if the container start step yields no identifier
(empty launcher stdout after the settle delay), no error is raised;
the empty string is used as the identifier, the guarded scope is
entered, and the single stop command of the session targets the empty
identifier. -/
theorem C3_empty_identifier_amended (o : GenericOptions) (w : GenWorld)
    (hv : genericValidate o = .ok ()) (hb : w.buildOutcome = .success)
    (hr : w.runStdout = "") :
    (genericMain o w).1.filter isStop = [Event.cmd (stopCmd "")] := by
  have h := genericMain_stopFilter o w hv hb
  rw [hr] at h
  have h0 : readlineRstrip "" = "" := rfl
  rw [h0] at h
  exact h

/-- Witness for the amended C3. -/
theorem C3_empty_identifier_amended_witness :
    genericValidate oValid = .ok () ∧
    wEmptyRun.buildOutcome = .success ∧ wEmptyRun.runStdout = "" ∧
    (genericMain oValid wEmptyRun).1.filter isStop =
      [Event.cmd (stopCmd "")] :=
  ⟨rfl, rfl, rfl, C3_empty_identifier_amended oValid wEmptyRun rfl rfl rfl⟩

/-- An environment in which the credential program succeeds but writes
nothing to stdout. -/
def wNoCredLine : GenWorld := { wHappy with credStdout := "" }

/-- Claim C10: if the credential program exits successfully but writes
no stdout lines, `result.stdout.splitlines()[0]` indexes an empty
list: the out-of-bounds branch is taken and the session fails with the
unnamed `IndexError`, not with one of the named credential errors. -/
theorem C10_empty_credential_output (o : GenericOptions) (w : GenWorld)
    (hv : genericValidate o = .ok ()) (hb : w.buildOutcome = .success)
    (hc : w.credOutcome = .success) (he : w.credStdout = "")
    (hs : w.stopExit = 0) :
    (splitlines w.credStdout).get? 0 = none ∧
    (genericMain o w).2 = some Exc.indexError ∧
    ∀ msg, Exc.indexError ≠ Exc.runtimeError msg := by
  have hg : (splitlines w.credStdout).get? 0 = none := by
    rw [he]; rfl
  refine ⟨hg, ?_, fun msg h => by cases h⟩
  rw [genericMain_eq o w hv hb, if_pos hs]
  rw [genericBody_noLine o w _ hc hg]

/-- Witness for C10. -/
theorem C10_empty_credential_output_witness :
    genericValidate oValid = .ok () ∧ wNoCredLine.credStdout = "" ∧
    (splitlines wNoCredLine.credStdout).get? 0 = none ∧
    (genericMain oValid wNoCredLine).2 = some Exc.indexError ∧
    (∀ msg, Exc.indexError ≠ Exc.runtimeError msg) :=
  ⟨rfl, rfl,
    (C10_empty_credential_output oValid wNoCredLine rfl rfl rfl rfl rfl).1,
    (C10_empty_credential_output oValid wNoCredLine rfl rfl rfl rfl rfl).2.1,
    (C10_empty_credential_output oValid wNoCredLine rfl rfl rfl rfl rfl).2.2⟩

/-- A valid option record for the vulkan variant. -/
def vValid : VulkanOptions :=
  { driver := "535", viewport_height := 900, depth := 24, device := 0,
    remote_host := "127.0.0.1", remote_port := 19222,
    message_queue_port := 37247, novnc_port := 6080,
    pwfileExists := true, pwfileIsFile := true }

/-- Claim C4 evaluation: the generic variant accepts
`--novnc-port 1024` (its check is `< 1024 or 49151 <`), while the
vulkan variant rejects it and both reject 49152 and accept 1025 and
49151; the other port checks of the generic variant reject 1024. -/
theorem C4_port_ranges :
    genericValidate { oValid with novnc_port := 1024 } = .ok () ∧
    genericValidate { oValid with novnc_port := 1025 } = .ok () ∧
    genericValidate { oValid with novnc_port := 49151 } = .ok () ∧
    genericValidate { oValid with novnc_port := 49152 } =
      .error (.runtimeError "novnc-port") ∧
    vulkanValidate { vValid with novnc_port := 1024 } =
      .error (.runtimeError "novnc-port") ∧
    vulkanValidate { vValid with novnc_port := 1025 } = .ok () ∧
    vulkanValidate { vValid with novnc_port := 49151 } = .ok () ∧
    vulkanValidate { vValid with novnc_port := 49152 } =
      .error (.runtimeError "novnc-port") ∧
    genericValidate { oValid with remote_port := 1024 } =
      .error (.runtimeError "remote-port") ∧
    genericValidate { oValid with message_queue_port := 1024 } =
      .error (.runtimeError "message-queue-port") :=
  ⟨rfl, rfl, rfl, rfl, rfl, rfl, rfl, rfl, rfl, rfl⟩

/-- Claim C5: the derived width is `floor(h/9)*16` (witnessed by the
floor bracket `9*(h/9) ≤ h < 9*(h/9)+9`; `/` is Euclidean division,
which is floor division for the positive divisors used here), the
derived height is `floor(width*3/4)` computed from the already
truncated width, and for `h = 900` the results are 1600 and 1200. -/
theorem C5_geometry_derivation (h : Int) :
    derivedWidth h = h / 9 * 16 ∧
    derivedHeight h = derivedWidth h * 3 / 4 ∧
    (9 * (h / 9) ≤ h ∧ h < 9 * (h / 9) + 9) ∧
    (4 * (derivedWidth h * 3 / 4) ≤ derivedWidth h * 3 ∧
      derivedWidth h * 3 < 4 * (derivedWidth h * 3 / 4) + 4) ∧
    derivedWidth 900 = 1600 ∧ derivedHeight 900 = 1200 := by
  refine ⟨?_, ?_, by omega, by omega, by decide, by decide⟩
  · unfold derivedWidth
    rw [Int.fdiv_eq_ediv _ (by decide : (0:Int) ≤ 9)]
  · unfold derivedHeight
    rw [Int.fdiv_eq_ediv _ (by decide : (0:Int) ≤ 4)]

/-- The viewport-height range that successful generic validation
guarantees. -/
lemma genericValidate_viewport (o : GenericOptions)
    (hv : genericValidate o = .ok ()) :
    720 ≤ o.viewport_height ∧ o.viewport_height ≤ 2160 := by
  unfold genericValidate at hv
  split at hv
  · simp at hv
  · next hcond =>
    push_neg at hcond
    exact hcond

/-- Claim C9 counterexample: viewport-height 2160 is accepted by
validation, yet its derived height is 2880, outside the claimed bound
of 2160. -/
theorem C9_dimension_bounds_counterexample :
    genericValidate { oValid with viewport_height := 2160 } = .ok () ∧
    derivedHeight 2160 = 2880 ∧ ¬(derivedHeight 2160 ≤ 2160) :=
  ⟨rfl, by decide, by decide⟩

/-- Claim C9 amended: for every configuration accepted by validation,
the derived width lies in [1280, 3840], but the derived height lies in
[960, 2880] — it exceeds the claimed 2160 bound for large
viewport heights. -/
theorem C9_dimension_bounds (o : GenericOptions)
    (hv : genericValidate o = .ok ()) :
    1280 ≤ derivedWidth o.viewport_height ∧
    derivedWidth o.viewport_height ≤ 3840 ∧
    960 ≤ derivedHeight o.viewport_height ∧
    derivedHeight o.viewport_height ≤ 2880 := by
  obtain ⟨h1, h2⟩ := genericValidate_viewport o hv
  have hw : derivedWidth o.viewport_height =
      o.viewport_height / 9 * 16 := by
    unfold derivedWidth
    rw [Int.fdiv_eq_ediv _ (by decide : (0:Int) ≤ 9)]
  have hh : derivedHeight o.viewport_height =
      o.viewport_height / 9 * 16 * 3 / 4 := by
    unfold derivedHeight
    rw [Int.fdiv_eq_ediv _ (by decide : (0:Int) ≤ 4), hw]
  rw [hw, hh]
  omega

/-- Witness for the amended C9. -/
theorem C9_dimension_bounds_witness :
    genericValidate oValid = .ok () ∧
    1280 ≤ derivedWidth oValid.viewport_height ∧
    derivedWidth oValid.viewport_height ≤ 3840 ∧
    960 ≤ derivedHeight oValid.viewport_height ∧
    derivedHeight oValid.viewport_height ≤ 2880 :=
  ⟨rfl, C9_dimension_bounds oValid rfl⟩

/-- A credential value containing a single quote. -/
def pwQuote : String :=
  String.mk [Char.ofNat 97, Char.ofNat 39, Char.ofNat 98]

/-- An environment whose credential program prints a secret containing
a single quote. -/
def wQuote : GenWorld := { wHappy with credStdout := pwQuote ++ "\n" }

/-- Claim C6: whenever the first credential line contains a single
quote, the session fails with the credential-format error and the
whole trace contains no exec-into-container command at all — in
particular no password-store command carrying the secret. -/
theorem C6_quote_rejected_before_store (o : GenericOptions)
    (w : GenWorld) (pw : String) (hv : genericValidate o = .ok ())
    (hb : w.buildOutcome = .success) (hc : w.credOutcome = .success)
    (hg : (splitlines w.credStdout).get? 0 = some pw)
    (hq : containsChar pw singleQuote = true) (hs : w.stopExit = 0) :
    (genericMain o w).2 =
      some (Exc.runtimeError "vnc-password-single-quote") ∧
    (genericMain o w).1.filter isExec = [] := by
  rw [genericMain_eq o w hv hb, if_pos hs,
    genericBody_quote o w _ pw hc hg hq]
  refine ⟨rfl, ?_⟩
  apply List.filter_eq_nil_iff.2
  intro e he
  simp only [List.mem_cons, List.mem_append, List.not_mem_nil,
    or_false] at he
  rcases he with rfl | rfl | (rfl | rfl | rfl) | rfl <;>
    simp [isExec, genericBuildCmd, genericRunCmd, stopCmd]

/-- Witness for C6. -/
theorem C6_quote_rejected_before_store_witness :
    genericValidate oValid = .ok () ∧
    (splitlines wQuote.credStdout).get? 0 = some pwQuote ∧
    containsChar pwQuote singleQuote = true ∧
    (genericMain oValid wQuote).2 =
      some (Exc.runtimeError "vnc-password-single-quote") ∧
    (genericMain oValid wQuote).1.filter isExec = [] :=
  ⟨rfl, rfl, rfl,
    C6_quote_rejected_before_store oValid wQuote pwQuote rfl rfl rfl
      rfl rfl rfl⟩

/-- The echoes of the credential program's stderr are always present
once the credential step succeeded, whatever happens later. -/
lemma genericBody_echoes (o : GenericOptions) (w : GenWorld)
    (cid : String) (hc : w.credOutcome = .success) :
    Event.echoOut w.credStderr ∈ (genericBody o w cid).1 ∧
    Event.echoErr w.credStderr ∈ (genericBody o w cid).1 := by
  unfold genericBody
  rw [hc]
  cases hg : (splitlines w.credStdout).get? 0 with
  | none => simp [hg]
  | some pw =>
    by_cases hq : containsChar pw singleQuote = true
    · simp [hg, hq]
    · simp [hg, hq]

/-- An environment whose credential program exits non-zero. -/
def wCredFail : GenWorld := { wHappy with credOutcome := .failure }

/-- Claim C7 counterexample: when the credential program exits
non-zero, the session aborts with `CalledProcessError` (the step is
run with `check=True`) and its stderr is never echoed — the claimed
execute-to-completion-without-failing behaviour does not hold. -/
theorem C7_credential_captured_counterexample :
    (genericMain oValid wCredFail).2 = some Exc.calledProcessError ∧
    (genericMain oValid wCredFail).1.filter isEcho = [] :=
  ⟨rfl, rfl⟩

/-- Claim C7 amended: the credential-reading step is checked — a
non-zero exit raises `CalledProcessError` and nothing is echoed —
while on success the program's stderr is echoed to both the
orchestrator's stdout and stderr (whatever happens afterwards). -/
theorem C7_credential_stderr_echo (o : GenericOptions) (w : GenWorld)
    (hv : genericValidate o = .ok ()) (hb : w.buildOutcome = .success) :
    (w.credOutcome = .failure →
      (genericMain o w).2 = some Exc.calledProcessError ∧
      (genericMain o w).1.filter isEcho = []) ∧
    (w.credOutcome = .success →
      Event.echoOut w.credStderr ∈ (genericMain o w).1 ∧
      Event.echoErr w.credStderr ∈ (genericMain o w).1) := by
  constructor
  · intro hc
    rw [genericMain_eq o w hv hb, genericBody_credFail o w _ hc]
    constructor
    · by_cases hs : w.stopExit = 0 <;> simp [hs]
    · rfl
  · intro hc
    obtain ⟨e1, e2⟩ :=
      genericBody_echoes o w (readlineRstrip w.runStdout) hc
    rw [genericMain_eq o w hv hb]
    constructor <;> simp only [List.mem_cons, List.mem_append] <;> tauto

/-- Witness for the amended C7: the failure side at a non-zero
credential exit, the success side in the all-success environment. -/
theorem C7_credential_stderr_echo_witness :
    (wCredFail.credOutcome = .failure ∧
      (genericMain oValid wCredFail).2 = some Exc.calledProcessError ∧
      (genericMain oValid wCredFail).1.filter isEcho = []) ∧
    (wHappy.credOutcome = .success ∧
      Event.echoOut wHappy.credStderr ∈ (genericMain oValid wHappy).1 ∧
      Event.echoErr wHappy.credStderr ∈ (genericMain oValid wHappy).1) :=
  ⟨⟨rfl, (C7_credential_stderr_echo oValid wCredFail rfl rfl).1 rfl⟩,
    ⟨rfl, (C7_credential_stderr_echo oValid wHappy rfl rfl).2 rfl⟩⟩

/-- Claim C8: on the happy path the whole session trace is exactly —
in this order — the image build, the container start, the credential
run and its two stderr echoes, then inside the running container the
headless display sized from the derived geometry, the password store,
the remote-desktop server on that display, the web-relay, the detached
remote-browser-control process carrying remote host, remote port,
message-queue port and viewport height inside the activated local
automation environment, then the blocking operator prompt, and only
then the stop command at scope exit. -/
theorem C8_bootstrap_order (o : GenericOptions) (w : GenWorld)
    (pw : String) (hv : genericValidate o = .ok ())
    (hb : w.buildOutcome = .success) (hc : w.credOutcome = .success)
    (hg : (splitlines w.credStdout).get? 0 = some pw)
    (hq : containsChar pw singleQuote = false)
    (h1 : w.xvfbOutcome = .success) (h2 : w.storeOutcome = .success)
    (h3 : w.vncOutcome = .success) (h4 : w.novncOutcome = .success)
    (h5 : w.browserOutcome = .success)
    (hi : w.inputInterrupted = false) (hs : w.stopExit = 0) :
    genericMain o w =
      (Event.cmd genericBuildCmd ::
       Event.cmd (genericRunCmd o) ::
       Event.credentialRun ::
       Event.echoOut w.credStderr ::
       Event.echoErr w.credStderr ::
       Event.cmd (xvfbCmd (readlineRstrip w.runStdout)
         (derivedWidth o.viewport_height)
         (derivedHeight o.viewport_height) o.depth) ::
       Event.cmd (storePasswdCmd (readlineRstrip w.runStdout) pw) ::
       Event.cmd (x11vncCmd (readlineRstrip w.runStdout)
         (derivedWidth o.viewport_height)
         (derivedHeight o.viewport_height)) ::
       Event.cmd (novncCmd (readlineRstrip w.runStdout)) ::
       Event.cmd (remoteBrowserCmd o (readlineRstrip w.runStdout)) ::
       Event.prompt promptMsg ::
       [Event.cmd (stopCmd (readlineRstrip w.runStdout))], none) := by
  rw [genericMain_eq o w hv hb, if_pos hs,
    genericBody_happy o w _ pw hc hg hq h1 h2 h3 h4 h5 hi]
  simp

/-- Witness for C8 in the all-success environment. -/
theorem C8_bootstrap_order_witness :
    genericValidate oValid = .ok () ∧
    genericMain oValid wHappy =
      (Event.cmd genericBuildCmd ::
       Event.cmd (genericRunCmd oValid) ::
       Event.credentialRun ::
       Event.echoOut "diag\n" ::
       Event.echoErr "diag\n" ::
       Event.cmd (xvfbCmd "cid123" 1600 1200 24) ::
       Event.cmd (storePasswdCmd "cid123" "secret1") ::
       Event.cmd (x11vncCmd "cid123" 1600 1200) ::
       Event.cmd (novncCmd "cid123") ::
       Event.cmd (remoteBrowserCmd oValid "cid123") ::
       Event.prompt promptMsg ::
       [Event.cmd (stopCmd "cid123")], none) :=
  ⟨rfl, C8_bootstrap_order oValid wHappy "secret1" rfl rfl rfl rfl rfl
    rfl rfl rfl rfl rfl rfl rfl⟩

end Majsoulrpaview
